import Mathlib

/-!
Verification of the Editor.js image block tool (src/index.ts).

The embedding models the `ImageTool` class's data-owning core: the stored
`_data : ImageToolData`, the one-shot `isDataInit` flag, and the methods that
read or mutate them (`isTuneActive`, `setTune`, `tuneToggled`, the `data` and
`image` setters, `onUpload`, `uploadingFailed`, `validate`, `save`, and the
constructor's data initialization).  Calls into the UI module, the DOM, the
notifier and the console are modelled as an emitted list of `UiEvent`s, since
the tool only observes them through those call sites.
-/

/-- Character-level embedding of `String.prototype.startsWith`: `p` is a
prefix of `s`. -/
def jsStartsWith (s p : String) : Bool := p.data.isPrefixOf s.data

/-- Character-level embedding of dropping the first `n` characters of a
string. -/
def jsDrop (s : String) (n : Nat) : String := ⟨s.data.drop n⟩

/-- File reference stored in the block data: at least `{ url: string }`. -/
structure FileRef where
  url : String
deriving DecidableEq, Repr

/-- The persisted block data `ImageToolData`:
`{ caption: string, withBorder: boolean, size?: "30"|"50"|"70"|"100", file: {url} }`.
`size` is `Option String` because `SizeOptions` is a string union and the field
may be `undefined`. -/
structure ImageToolData where
  caption : String
  withBorder : Bool
  size : Option String
  file : FileRef
deriving DecidableEq, Repr

/-- The normalized upload envelope `UploadResponseFormat`:
`{ success: boolean, file?: { url: string } }`. -/
structure UploadResponseFormat where
  success : Bool
  file : Option FileRef
deriving DecidableEq, Repr

/-- Observable effects the tool performs on its collaborators: the UI module
(`fillImage`, `applyTune`, `hidePreloader`), the DOM popover item deactivation
performed inside `setTune`, the host notifier (error notification in
`uploadingFailed`), and `console.log`. -/
inductive UiEvent where
  | fillImage (url : String)
  | applyTune (name : String) (value : Bool)
  | removePopoverActive (name : String)
  | showErrorNotification
  | hidePreloader
  | consoleLog
deriving DecidableEq, Repr

/-- The mutable state of one `ImageTool` instance: the stored `_data` and the
one-shot `isDataInit` flag (`private isDataInit = false`, src/index.ts:90). -/
structure BlockState where
  _data : ImageToolData
  isDataInit : Bool
deriving DecidableEq, Repr

/-- The names of the built-in tunes, in order (`static get tunes`,
src/index.ts:194-227). -/
def tuneNames : List String := ["withBorder", "size30", "size50", "size70", "size100"]

/-- The four names of the mutually-exclusive size group. -/
def sizeTuneNames : List String := ["size30", "size50", "size70", "size100"]

/-- Reflective read `this.data[name as keyof ImageToolData] as boolean`
(src/index.ts:298), embedded by the JS truthiness of each schema field:
`withBorder` is the only boolean-typed key; `caption` (a string) is truthy iff
non-empty; `file` (an object) is always truthy; any other key is `undefined`,
hence falsy. -/
def booleanField (d : ImageToolData) (name : String) : Bool :=
  if name = "withBorder" then d.withBorder
  else if name = "caption" then !(d.caption = "")
  else if name = "file" then true
  else false

/-- `isTuneActive(name)` (src/index.ts:296-304): for a name not starting with
`"size"` return the reflective field read; otherwise `false` when `size` is
`undefined`, else the test `"size" + this.data.size === name`. -/
def isTuneActive (s : BlockState) (name : String) : Bool :=
  if !(jsStartsWith name "size") then
    booleanField s._data name
  else
    match s._data.size with
    | none => false
    | some sz => decide ("size" ++ sz = name)

/-- `setTune(tuneName, value)` (src/index.ts:496-534).  For a size name:
before `isDataInit` the whole branch body is the empty statement `{}` — no
data mutation at all; after initialization, `value = true` first deactivates
every other currently-active size tune in the DOM popover and the UI, then
assigns `size = tuneName.replace("size", "")` (the guard guarantees the first
occurrence of `"size"` is the four-character prefix, so the JS
first-occurrence replace equals dropping four characters); `value = false`
assigns `size = undefined`.  For a non-size name the reflective write
`(this._data[tuneName as keyof ImageToolData] as boolean) = value` is
well-typed only for `withBorder`, the sole boolean key and the sole non-size
built-in tune; the embedding covers exactly that key.  In every branch the
method ends with `this.ui.applyTune(tuneName, value)`. -/
def setTune (s : BlockState) (tuneName : String) (value : Bool) :
    BlockState × List UiEvent :=
  if jsStartsWith tuneName "size" then
    if !s.isDataInit then
      (s, [UiEvent.applyTune tuneName value])
    else if value then
      let others := tuneNames.filter (fun item =>
        jsStartsWith item "size" && decide (item ≠ tuneName) && isTuneActive s item)
      let deactivations := others.foldr (fun item acc =>
        UiEvent.removePopoverActive item :: UiEvent.applyTune item false :: acc) []
      ({ s with _data := { s._data with size := some (jsDrop tuneName 4) } },
        deactivations ++ [UiEvent.applyTune tuneName value])
    else
      ({ s with _data := { s._data with size := none } },
        [UiEvent.applyTune tuneName value])
  else
    let d := s._data
    let d' := if tuneName = "withBorder" then { d with withBorder := value } else d
    ({ s with _data := d' }, [UiEvent.applyTune tuneName value])

/-- `tuneToggled(tuneName)` (src/index.ts:484-487): inverts the current
activity and delegates to `setTune`. -/
def tuneToggled (s : BlockState) (tuneName : String) : BlockState × List UiEvent :=
  setTune s tuneName (!(isTuneActive s tuneName))

/-- The `image` setter (src/index.ts:435-441): `this._data.file = file || {url: ""}`
(an object is always truthy, so only a missing reference falls back to the
empty default), then `fillImage` when the reference exists and its url is
truthy (non-empty). -/
def setImage (s : BlockState) (file : Option FileRef) : BlockState × List UiEvent :=
  let events := match file with
    | some f => if f.url = "" then [] else [UiEvent.fillImage f.url]
    | none => []
  ({ s with _data := { s._data with file := file.getD { url := "" } } }, events)

/-- `uploadingFailed(errorText)` (src/index.ts:466-474): logs, shows exactly
one error notification through the host notifier, hides the preloader, and
leaves the state untouched. -/
def uploadingFailed (s : BlockState) : BlockState × List UiEvent :=
  (s, [UiEvent.consoleLog, UiEvent.showErrorNotification, UiEvent.hidePreloader])

/-- `onUpload(response)` (src/index.ts:451-457): the success path requires
`response.success && response.file` — the file reference is an object, so its
truthiness is exactly presence; every other outcome is routed to
`uploadingFailed`. -/
def onUpload (s : BlockState) (response : UploadResponseFormat) :
    BlockState × List UiEvent :=
  if response.success && response.file.isSome then
    setImage s response.file
  else
    uploadingFailed s

/-- One iteration of the restore loop inside the `data` setter
(src/index.ts:409-412): read the tune's current activity from the state and
re-apply it through `setTune`. -/
def restoreTune (acc : BlockState × List UiEvent) (tune : String) :
    BlockState × List UiEvent :=
  let value := isTuneActive acc.1 tune
  let r := setTune acc.1 tune value
  (r.1, acc.2 ++ r.2)

/-- The `data` setter (src/index.ts:402-415): assign `this.image = data.file`,
then `this._data.size = data.size` (the caption assignment is commented out in
the source), then run the restore loop over the built-in tunes, and finally
set `isDataInit = true`. -/
def setData (s : BlockState) (d : ImageToolData) : BlockState × List UiEvent :=
  let r1 := setImage s (some d.file)
  let s2 : BlockState := { r1.1 with _data := { r1.1._data with size := d.size } }
  let r3 := tuneNames.foldl restoreTune (s2, r1.2)
  ({ r3.1 with isDataInit := true }, r3.2)

/-- The defaults seeded into `this._data` by the constructor before any
external data is merged (src/index.ts:156-163). -/
def initialState : BlockState :=
  { _data := { caption := "", withBorder := false, size := none, file := { url := "" } },
    isDataInit := false }

/-- The constructor's data initialization (src/index.ts:156-164): seed the
defaults, then `this.data = data`. -/
def construct (d : ImageToolData) : BlockState × List UiEvent :=
  setData initialState d

/-- `save()` (src/index.ts:258-264): returns `this.data`, i.e. `_data`,
verbatim (the caption refresh is commented out in the source). -/
def save (s : BlockState) : ImageToolData := s._data

/-- `validate(savedData)` (src/index.ts:247-249): `!!savedData.file.url`, i.e.
true iff the url string is non-empty. -/
def validate (savedData : ImageToolData) : Bool := !(savedData.file.url = "")

/-- The mutating entry points of the tool, used to state trace properties. -/
inductive Op where
  | tune (name : String) (value : Bool)
  | toggle (name : String)
  | upload (response : UploadResponseFormat)
  | image (file : Option FileRef)
  | assignData (d : ImageToolData)
deriving DecidableEq, Repr

/-- Apply one operation to the state, discarding the emitted UI events. -/
def applyOp (s : BlockState) : Op → BlockState
  | Op.tune n v => (setTune s n v).1
  | Op.toggle n => (tuneToggled s n).1
  | Op.upload r => (onUpload s r).1
  | Op.image f => (setImage s f).1
  | Op.assignData d => (setData s d).1

/-- Run a list of operations in order. -/
def runOps (s : BlockState) : List Op → BlockState
  | [] => s
  | op :: ops => runOps (applyOp s op) ops

/-- An operation whose tune name stays inside the built-in tune vocabulary
(the reflective field write of `setTune` is only well-typed there). -/
def opInVocab : Op → Prop
  | Op.tune n _ => n ∈ tuneNames
  | Op.toggle n => n ∈ tuneNames
  | _ => True

/-- A sample initialized state (border on, size 50, image present), used to
instantiate universally quantified theorems. -/
def sampleInit : BlockState :=
  { _data := ⟨"", true, some "50", ⟨"http://x/y.png"⟩⟩, isDataInit := true }

/-- A sample state still inside initialization (restore loop), carrying a
restored size. -/
def samplePre : BlockState :=
  { _data := ⟨"", false, some "50", ⟨""⟩⟩, isDataInit := false }

/-- A sample initialized state with no size tune applied. -/
def sampleNone : BlockState :=
  { _data := ⟨"", false, none, ⟨"u"⟩⟩, isDataInit := true }

/-! ### Helper lemmas -/

@[simp] theorem jsStartsWith_withBorder_size : jsStartsWith "withBorder" "size" = false := by
  decide

@[simp] theorem jsStartsWith_size30_size : jsStartsWith "size30" "size" = true := by decide

@[simp] theorem jsStartsWith_size50_size : jsStartsWith "size50" "size" = true := by decide

@[simp] theorem jsStartsWith_size70_size : jsStartsWith "size70" "size" = true := by decide

@[simp] theorem jsStartsWith_size100_size : jsStartsWith "size100" "size" = true := by decide

@[simp] theorem jsDrop_size30 : jsDrop "size30" 4 = "30" := by decide

@[simp] theorem jsDrop_size50 : jsDrop "size50" 4 = "50" := by decide

@[simp] theorem jsDrop_size70 : jsDrop "size70" 4 = "70" := by decide

@[simp] theorem jsDrop_size100 : jsDrop "size100" 4 = "100" := by decide

/-- Appending to the fixed prefix `"size"` is injective. -/
theorem sizePrefix_inj {a b : String} : ("size" ++ a = "size" ++ b) ↔ a = b := by
  constructor
  · intro h
    have hd := congrArg String.data h
    rw [String.data_append, String.data_append] at hd
    exact String.ext (List.append_cancel_left hd)
  · intro h
    rw [h]

/-- Activity of a size tune named `"size" ++ suffix` is exactly the test that
the stored size equals the suffix. -/
theorem isTuneActive_size_suffix (s : BlockState) (suffix : String)
    (h : jsStartsWith ("size" ++ suffix) "size" = true) :
    isTuneActive s ("size" ++ suffix) = decide (s._data.size = some suffix) := by
  simp only [isTuneActive, h, Bool.not_true, Bool.false_eq_true, if_false]
  cases s._data.size with
  | none => simp
  | some sz =>
    simp only [Option.some.injEq]
    exact decide_eq_decide.mpr sizePrefix_inj

theorem isTuneActive_size30 (s : BlockState) :
    isTuneActive s "size30" = decide (s._data.size = some "30") := by
  have h : ("size30" : String) = "size" ++ "30" := by decide
  rw [h]
  exact isTuneActive_size_suffix s "30" (by decide)

theorem isTuneActive_size50 (s : BlockState) :
    isTuneActive s "size50" = decide (s._data.size = some "50") := by
  have h : ("size50" : String) = "size" ++ "50" := by decide
  rw [h]
  exact isTuneActive_size_suffix s "50" (by decide)

theorem isTuneActive_size70 (s : BlockState) :
    isTuneActive s "size70" = decide (s._data.size = some "70") := by
  have h : ("size70" : String) = "size" ++ "70" := by decide
  rw [h]
  exact isTuneActive_size_suffix s "70" (by decide)

theorem isTuneActive_size100 (s : BlockState) :
    isTuneActive s "size100" = decide (s._data.size = some "100") := by
  have h : ("size100" : String) = "size" ++ "100" := by decide
  rw [h]
  exact isTuneActive_size_suffix s "100" (by decide)

theorem isTuneActive_withBorder (s : BlockState) :
    isTuneActive s "withBorder" = s._data.withBorder := by
  simp [isTuneActive, booleanField]

theorem setTune_caption (s : BlockState) (n : String) (v : Bool) :
    (setTune s n v).1._data.caption = s._data.caption := by
  simp only [setTune]
  split
  · split
    · rfl
    · split <;> rfl
  · split <;> rfl

theorem setTune_file (s : BlockState) (n : String) (v : Bool) :
    (setTune s n v).1._data.file = s._data.file := by
  simp only [setTune]
  split
  · split
    · rfl
    · split <;> rfl
  · split <;> rfl

theorem setTune_isDataInit (s : BlockState) (n : String) (v : Bool) :
    (setTune s n v).1.isDataInit = s.isDataInit := by
  simp only [setTune]
  split
  · split
    · rfl
    · split <;> rfl
  · split <;> rfl

/-- A size-tune `setTune` never touches the `withBorder` field. -/
theorem setTune_size_withBorder (s : BlockState) {n : String}
    (h : jsStartsWith n "size" = true) (v : Bool) :
    (setTune s n v).1._data.withBorder = s._data.withBorder := by
  simp only [setTune, h, if_true]
  split
  · rfl
  · split <;> rfl

/-- A `withBorder` `setTune` never touches the `size` field. -/
theorem setTune_withBorder_size (s : BlockState) (v : Bool) :
    (setTune s "withBorder" v).1._data.size = s._data.size := by
  simp [setTune]

/-- After initialization, activating a size tune stores the name's suffix. -/
theorem setTune_size_true (s : BlockState) {n : String}
    (h : jsStartsWith n "size" = true) (hi : s.isDataInit = true) :
    (setTune s n true).1._data.size = some (jsDrop n 4) := by
  simp [setTune, h, hi]

/-- After initialization, deactivating a size tune clears the `size` field. -/
theorem setTune_size_false (s : BlockState) {n : String}
    (h : jsStartsWith n "size" = true) (hi : s.isDataInit = true) :
    (setTune s n false).1._data.size = none := by
  simp [setTune, h, hi]

/-- Before initialization, a size-tune `setTune` is the empty statement on the
state. -/
theorem setTune_size_preinit (s : BlockState) {n : String}
    (h : jsStartsWith n "size" = true) (hi : s.isDataInit = false) (v : Bool) :
    (setTune s n v).1 = s := by
  simp [setTune, h, hi]

/-- A non-size `setTune` writes the `withBorder` field when so named. -/
theorem setTune_withBorder_field (s : BlockState) (v : Bool) :
    (setTune s "withBorder" v).1._data.withBorder = v := by
  simp [setTune]

/-! ### Claim theorems -/

/-- C1, counterexample: the round-trip claim fails as stated.  For the
previously-valid block data with caption `"legend"`, border on, size 50 and a
non-empty url, constructing a fresh block from it and saving does not return
an equal `BlockData` (the caption and the border are lost). -/
theorem c1_roundtrip_counterexample :
    save (construct ⟨"legend", true, some "50", ⟨"http://x/y.png"⟩⟩).1 ≠
      (⟨"legend", true, some "50", ⟨"http://x/y.png"⟩⟩ : ImageToolData) := by
  decide

/-- C1, amended: constructing a fresh block from any `BlockData` `d` and
saving yields `d`'s `file` and `size` unchanged, but always the empty caption
(the caption restore is commented out in the `data` setter) and always
`withBorder = false` (the restore loop re-applies the *current* activity read
by `isTuneActive`, which is the seeded default `false`, instead of
`d.withBorder`).  Hence the saved data equals `d` in all fields exactly when
`d.caption` is empty and `d.withBorder` is false. -/
theorem c1_roundtrip_amended (d : ImageToolData) :
    save (construct d).1 =
      { caption := "", withBorder := false, size := d.size, file := d.file }
    ∧ (save (construct d).1 = d ↔ (d.caption = "" ∧ d.withBorder = false)) := by
  have h1 : save (construct d).1 =
      { caption := "", withBorder := false, size := d.size, file := d.file } := by
    simp [construct, setData, setImage, initialState, save, tuneNames, restoreTune,
      setTune, isTuneActive, booleanField]
  refine ⟨h1, ?_⟩
  rw [h1]
  obtain ⟨c, w, sz, f⟩ := d
  simp [ImageToolData.mk.injEq, eq_comm]

/-- C7: `validate` is exactly the non-emptiness of `file.url`; it is
insensitive to every other field; in particular it rejects the empty url and
accepts `"http://x/y.png"`. -/
theorem c7_validate_sem (d e : ImageToolData) :
    (validate d = true ↔ d.file.url ≠ "")
    ∧ (d.file.url = e.file.url → validate d = validate e)
    ∧ validate ⟨"", false, none, ⟨""⟩⟩ = false
    ∧ validate ⟨"", false, none, ⟨"http://x/y.png"⟩⟩ = true := by
  refine ⟨?_, ?_, by decide, by decide⟩
  · simp [validate]
  · intro h
    simp [validate, h]

/-- C7 witness: instantiated at two concrete data records that differ in
caption, border and size but share the url, discharging the frame
hypothesis. -/
theorem c7_validate_witness :
    validate ⟨"a", true, some "30", ⟨"u"⟩⟩ = validate ⟨"b", false, none, ⟨"u"⟩⟩ :=
  (c7_validate_sem ⟨"a", true, some "30", ⟨"u"⟩⟩ ⟨"b", false, none, ⟨"u"⟩⟩).2.1 rfl

theorem setImage_caption (s : BlockState) (f : Option FileRef) :
    (setImage s f).1._data.caption = s._data.caption := rfl

theorem restoreTune_caption (p : BlockState × List UiEvent) (x : String) :
    (restoreTune p x).1._data.caption = p.1._data.caption := by
  simp [restoreTune, setTune_caption]

theorem foldl_restoreTune_caption (l : List String) :
    ∀ p : BlockState × List UiEvent,
      ((l.foldl restoreTune p).1)._data.caption = p.1._data.caption := by
  induction l with
  | nil => intro p; rfl
  | cons x xs ih =>
    intro p
    rw [List.foldl_cons, ih, restoreTune_caption]

theorem setData_caption (s : BlockState) (d : ImageToolData) :
    (setData s d).1._data.caption = s._data.caption := by
  show ((tuneNames.foldl restoreTune _).1)._data.caption = _
  rw [foldl_restoreTune_caption]
  rfl

theorem applyOp_caption (s : BlockState) (op : Op) :
    (applyOp s op)._data.caption = s._data.caption := by
  cases op with
  | tune n v => exact setTune_caption s n v
  | toggle n => exact setTune_caption s n _
  | upload r =>
    show (onUpload s r).1._data.caption = _
    simp only [onUpload]
    split
    · exact setImage_caption s r.file
    · rfl
  | image f => exact setImage_caption s f
  | assignData d => exact setData_caption s d

theorem runOps_caption (ops : List Op) :
    ∀ s : BlockState, (runOps s ops)._data.caption = s._data.caption := by
  induction ops with
  | nil => intro s; rfl
  | cons op ops ih =>
    intro s
    show (runOps (applyOp s op) ops)._data.caption = _
    rw [ih, applyOp_caption]

/-- After initialization, activating the size tune named `n` leaves every
other size-group tune inactive: the stored size is `n`'s suffix, which cannot
match a different size name. -/
theorem setTune_size_true_deactivates (s : BlockState) {n : String}
    (h : jsStartsWith n "size" = true) (hi : s.isDataInit = true)
    (other : String) (ho : other ∈ sizeTuneNames) (hne : other ≠ n)
    (hsuffix : n = "size" ++ jsDrop n 4) :
    isTuneActive (setTune s n true).1 other = false := by
  have hsz := setTune_size_true s h hi
  simp only [sizeTuneNames, List.mem_cons, List.not_mem_nil, or_false] at ho
  rcases ho with rfl | rfl | rfl | rfl <;>
    first
      | rw [isTuneActive_size30, hsz]
      | rw [isTuneActive_size50, hsz]
      | rw [isTuneActive_size70, hsz]
      | rw [isTuneActive_size100, hsz]
  all_goals
    refine decide_eq_false fun hEq => ?_
    apply hne
    apply Eq.symm
    rw [hsuffix, Option.some.inj hEq]
    decide

/-- C2: for every state whatsoever (hence for every reachable one and after
any finite sequence of `setTune` calls), at most one of the four size tunes is
active — the activity of `"sizeX"` is the test `size = some "X"` on the single
`size` field, which can match at most one name of the group — and the size and
border tunes are mutually independent: a size-tune `setTune` does not change
`withBorder`'s activity and a `withBorder` `setTune` does not change any size
tune's activity. -/
theorem c2_size_group_exclusive (s : BlockState) :
    sizeTuneNames.countP (fun n => isTuneActive s n) ≤ 1
    ∧ (∀ name value, jsStartsWith name "size" = true →
        isTuneActive (setTune s name value).1 "withBorder" =
          isTuneActive s "withBorder")
    ∧ (∀ value, ∀ n ∈ sizeTuneNames,
        isTuneActive (setTune s "withBorder" value).1 n = isTuneActive s n) := by
  refine ⟨?_, ?_, ?_⟩
  · have e30 := isTuneActive_size30 s
    have e50 := isTuneActive_size50 s
    have e70 := isTuneActive_size70 s
    have e100 := isTuneActive_size100 s
    simp only [sizeTuneNames, List.countP_cons, List.countP_nil, e30, e50, e70, e100]
    rcases hsz : s._data.size with _ | sz
    · simp
    · by_cases h30 : sz = "30"
      · subst h30; simp
      · by_cases h50 : sz = "50"
        · subst h50; simp
        · by_cases h70 : sz = "70"
          · subst h70; simp
          · by_cases h100 : sz = "100"
            · subst h100; simp
            · simp [h30, h50, h70, h100]
  · intro name value h
    simp [isTuneActive_withBorder, setTune_size_withBorder _ h]
  · intro value n hn
    have hsz := setTune_withBorder_size s value
    simp only [sizeTuneNames, List.mem_cons, List.not_mem_nil, or_false] at hn
    rcases hn with rfl | rfl | rfl | rfl <;>
      simp [isTuneActive_size30, isTuneActive_size50, isTuneActive_size70,
        isTuneActive_size100, hsz]

/-- C2 witness: the exclusivity bound and both independence directions,
instantiated at a concrete initialized state with size 50 and border on. -/
theorem c2_size_group_exclusive_witness :
    sizeTuneNames.countP (fun n => isTuneActive sampleInit n) ≤ 1
    ∧ isTuneActive (setTune sampleInit "size30" true).1 "withBorder" =
        isTuneActive sampleInit "withBorder"
    ∧ isTuneActive (setTune sampleInit "withBorder" false).1 "size50" =
        isTuneActive sampleInit "size50" :=
  ⟨(c2_size_group_exclusive sampleInit).1,
   (c2_size_group_exclusive sampleInit).2.1 "size30" true (by decide),
   (c2_size_group_exclusive sampleInit).2.2 false "size50" (by decide)⟩

/-- C3: once `isDataInit` is set, `setTune` on a size-group name with `true`
stores the name's numeric suffix (`jsDrop name 4`, and the name is `"size"`
followed by that suffix) and leaves every other size tune inactive; with
`false` it clears `size`; and on the non-size tune name `withBorder` it writes
the `withBorder` field to the given value. -/
theorem c3_setTune_post (s : BlockState) (value : Bool) (name : String)
    (hi : s.isDataInit = true) :
    (name ∈ sizeTuneNames →
      ((setTune s name true).1._data.size = some (jsDrop name 4)
        ∧ name = "size" ++ jsDrop name 4
        ∧ ∀ other ∈ sizeTuneNames, other ≠ name →
            isTuneActive (setTune s name true).1 other = false)
      ∧ (setTune s name false).1._data.size = none)
    ∧ (setTune s "withBorder" value).1._data.withBorder = value := by
  constructor
  · intro hn
    simp only [sizeTuneNames, List.mem_cons, List.not_mem_nil, or_false] at hn
    rcases hn with rfl | rfl | rfl | rfl <;>
      exact ⟨⟨setTune_size_true s (by decide) hi, by decide,
          fun other ho hne =>
            setTune_size_true_deactivates s (by decide) hi other ho hne (by decide)⟩,
        setTune_size_false s (by decide) hi⟩
  · exact setTune_withBorder_field s value

/-- C3 witness: instantiated at a concrete initialized state for the size
name `"size30"` (with `"size50"` as the other tune) and for `withBorder`. -/
theorem c3_setTune_post_witness :
    (setTune sampleInit "size30" true).1._data.size = some (jsDrop "size30" 4)
    ∧ isTuneActive (setTune sampleInit "size30" true).1 "size50" = false
    ∧ (setTune sampleInit "size30" false).1._data.size = none
    ∧ (setTune sampleInit "withBorder" true).1._data.withBorder = true :=
  have h := c3_setTune_post sampleInit true "size30" rfl
  ⟨(h.1 (by decide)).1.1,
   (h.1 (by decide)).1.2.2 "size50" (by decide) (by decide),
   (h.1 (by decide)).2,
   h.2⟩

/-- C4: `isTuneActive` returns the `withBorder` field for the non-size tune
name, and for a size-group name it is exactly the test that the stored `size`
equals the suffix encoded in the name; when `size` is unset every size tune is
inactive. -/
theorem c4_isTuneActive_sem (s : BlockState) :
    isTuneActive s "withBorder" = s._data.withBorder
    ∧ (∀ n ∈ sizeTuneNames,
        isTuneActive s n = decide (s._data.size = some (jsDrop n 4)))
    ∧ (s._data.size = none → ∀ n ∈ sizeTuneNames, isTuneActive s n = false) := by
  refine ⟨isTuneActive_withBorder s, ?_, ?_⟩
  · intro n hn
    simp only [sizeTuneNames, List.mem_cons, List.not_mem_nil, or_false] at hn
    rcases hn with rfl | rfl | rfl | rfl <;>
      simp [isTuneActive_size30, isTuneActive_size50, isTuneActive_size70,
        isTuneActive_size100]
  · intro h n hn
    simp only [sizeTuneNames, List.mem_cons, List.not_mem_nil, or_false] at hn
    rcases hn with rfl | rfl | rfl | rfl <;>
      simp [isTuneActive_size30, isTuneActive_size50, isTuneActive_size70,
        isTuneActive_size100, h]

/-- C4 witness: instantiated at a concrete state with size 50 and at a
concrete state with unset size. -/
theorem c4_isTuneActive_sem_witness :
    isTuneActive sampleInit "size50" =
      decide (sampleInit._data.size = some (jsDrop "size50" 4))
    ∧ isTuneActive sampleNone "size30" = false :=
  ⟨(c4_isTuneActive_sem sampleInit).2.1 "size50" (by decide),
   (c4_isTuneActive_sem sampleNone).2.2 rfl "size30" (by decide)⟩

/-- C5: every upload outcome routed to the failure path — success flag false,
or success with a missing file reference — leaves the whole block state (in
particular `data.file`) unchanged, emits exactly one error notification, and
hides the progress indicator; the embedding is a total function, so no
exception escapes. -/
theorem c5_upload_failure_frame (s : BlockState) (r : UploadResponseFormat)
    (h : r.success = false ∨ r.file = none) :
    (onUpload s r).1 = s
    ∧ ((onUpload s r).2.countP
        (fun e => decide (e = UiEvent.showErrorNotification))) = 1
    ∧ UiEvent.hidePreloader ∈ (onUpload s r).2 := by
  have hc : (r.success && r.file.isSome) = false := by
    rcases h with h | h <;> simp [h]
  refine ⟨?_, ?_, ?_⟩ <;> simp [onUpload, hc, uploadingFailed]

/-- C5 witness: a failed response applied to a concrete state. -/
theorem c5_upload_failure_frame_witness :
    (onUpload sampleInit ⟨false, none⟩).1 = sampleInit
    ∧ ((onUpload sampleInit ⟨false, none⟩).2.countP
        (fun e => decide (e = UiEvent.showErrorNotification))) = 1
    ∧ UiEvent.hidePreloader ∈ (onUpload sampleInit ⟨false, none⟩).2 :=
  c5_upload_failure_frame sampleInit ⟨false, none⟩ (Or.inl rfl)

/-- C6: a successful response carrying the file reference
`{url: "http://x/y.png"}` sets `data.file.url` to that value and leaves
`withBorder` and `size` unchanged, in every block state. -/
theorem c6_upload_success_frame (s : BlockState) :
    (onUpload s ⟨true, some ⟨"http://x/y.png"⟩⟩).1._data.file.url = "http://x/y.png"
    ∧ (onUpload s ⟨true, some ⟨"http://x/y.png"⟩⟩).1._data.withBorder =
        s._data.withBorder
    ∧ (onUpload s ⟨true, some ⟨"http://x/y.png"⟩⟩).1._data.size = s._data.size := by
  refine ⟨?_, ?_, ?_⟩ <;> simp [onUpload, setImage]

/-- C8: a response with success flag true and a present file reference whose
url is empty takes the success path: `data.file` is replaced by the empty-url
reference (so `validate` on the saved data becomes false), and no events at
all are emitted — in particular no error notification. -/
theorem c8_empty_url_success_path (s : BlockState) :
    (onUpload s ⟨true, some ⟨""⟩⟩).1._data.file = ⟨""⟩
    ∧ validate (save (onUpload s ⟨true, some ⟨""⟩⟩).1) = false
    ∧ ((onUpload s ⟨true, some ⟨""⟩⟩).2.countP
        (fun e => decide (e = UiEvent.showErrorNotification))) = 0
    ∧ (onUpload s ⟨true, some ⟨""⟩⟩).2 = [] := by
  refine ⟨?_, ?_, ?_, ?_⟩ <;> simp [onUpload, setImage, validate, save]

/-- C9: before the one-shot `isDataInit` flag is set, `setTune` on a size-tune
name is a no-op on the whole state for either value — in particular a restored
`size` is never overwritten by the restore loop. -/
theorem c9_preinit_size_tune_frame (s : BlockState) (name : String) (value : Bool)
    (hi : s.isDataInit = false) (h : jsStartsWith name "size" = true) :
    (setTune s name value).1 = s
    ∧ (setTune s name value).1._data.size = s._data.size := by
  have hfix := setTune_size_preinit s h hi value
  exact ⟨hfix, by rw [hfix]⟩

/-- C9 witness: instantiated at a pre-initialization state carrying a restored
size 50, with `setTune "size30" true`. -/
theorem c9_preinit_size_tune_frame_witness :
    (setTune samplePre "size30" true).1 = samplePre
    ∧ (setTune samplePre "size30" true).1._data.size = samplePre._data.size :=
  c9_preinit_size_tune_frame samplePre "size30" true rfl (by decide)

/-- C10: for every constructor input, including one with a non-empty caption,
the in-memory caption is the empty string after initialization; no operation
of the tool (over the built-in tune vocabulary, where the reflective tune
write is well-typed) ever writes it; hence `save` always returns an empty
caption. -/
theorem c10_caption_always_empty (d : ImageToolData) (ops : List Op)
    (_hvocab : ∀ op ∈ ops, opInVocab op) :
    (construct d).1._data.caption = ""
    ∧ (save (runOps (construct d).1 ops)).caption = "" := by
  have hc : (construct d).1._data.caption = "" := setData_caption initialState d
  refine ⟨hc, ?_⟩
  show (runOps (construct d).1 ops)._data.caption = ""
  rw [runOps_caption, hc]

/-- C10 witness: a constructor input with caption `"legend"`, followed by a
border toggle and a successful upload. -/
theorem c10_caption_always_empty_witness :
    (construct ⟨"legend", true, some "50", ⟨"u"⟩⟩).1._data.caption = ""
    ∧ (save (runOps (construct ⟨"legend", true, some "50", ⟨"u"⟩⟩).1
        [Op.tune "withBorder" true, Op.upload ⟨true, some ⟨"v"⟩⟩])).caption = "" :=
  c10_caption_always_empty ⟨"legend", true, some "50", ⟨"u"⟩⟩
    [Op.tune "withBorder" true, Op.upload ⟨true, some ⟨"v"⟩⟩]
    (by
      intro op hop
      simp only [List.mem_cons, List.not_mem_nil, or_false] at hop
      rcases hop with rfl | rfl <;> simp [opInVocab, tuneNames])
